import Mathlib

/-!
# Verification of the hospital-locator ranking and request handling

A shallow embedding of `app.py` (Flask hospital finder).  Python floats are
modelled as rationals (`ℚ`); the geodesic distance function and the external
geocoder are opaque parameters; Python's stable `list.sort` / `sorted` with a
key function is modelled by `List.insertionSort` over the key's total preorder
(stable sorts over the same preorder produce identical output, so this is
faithful to CPython's Timsort observable behaviour).
-/

namespace HospitalLocator

/-- Python's `str.strip()`: drop leading and trailing whitespace (computed on
the character list so that it evaluates inside the kernel). -/
def pyStrip (s : String) : String :=
  String.mk (((s.data.dropWhile Char.isWhitespace).reverse.dropWhile Char.isWhitespace).reverse)

/-- Python's `str.split("|")` (computed on the character list). -/
def pySplitPipe (s : String) : List String := (s.data.splitOn '|').map String.mk

/-- Python's `str` comparison `a <= b`: lexicographic by code point. -/
def pyStrLE (a b : String) : Prop := a.data < b.data ∨ a.data = b.data

instance : DecidableRel pyStrLE :=
  fun a b => inferInstanceAs (Decidable (a.data < b.data ∨ a.data = b.data))

/-- A latitude/longitude pair in decimal degrees. -/
abbrev Coord := ℚ × ℚ

/-- A record of the dataset, as built by `load_hospitals` (fallback branch):
the dict keys `name, type, coords, doctors, rating` of `app.py`. -/
structure Hospital where
  name : String
  type : String
  coords : Coord
  doctors : List String
  rating : ℚ
deriving Repr, DecidableEq

/-- A per-request copy of a hospital dict after the distance loop added the
`"distance"` key (`h["distance"] = geodesic(user_coords, h["coords"]).km`). -/
structure Ranked where
  name : String
  type : String
  coords : Coord
  doctors : List String
  rating : ℚ
  distance : ℚ
deriving Repr, DecidableEq

/-- The fallback sample dataset returned by `load_hospitals` when no
`hospitals.csv` is present (`HOSPITALS = load_hospitals()`). -/
def HOSPITALS : List Hospital :=
  [ ⟨"AIIMS Delhi", "Multispeciality", (28.5672, 77.2100), ["Dr. Sharma", "Dr. Rao"], 4.8⟩,
    ⟨"Apollo Hospital Chennai", "Multispeciality", (13.0500, 80.2500), ["Dr. Kumar", "Dr. Meena"], 4.5⟩,
    ⟨"NIMHANS Bangalore", "Psychiatry", (12.9780, 77.5910), ["Dr. Ramesh"], 4.6⟩,
    ⟨"KEM Hospital Mumbai", "General", (18.9875, 72.8260), ["Dr. Patil"], 4.4⟩,
    ⟨"Vinayaka Mission Hospital Karaikal", "Multispeciality", (10.9094, 79.8461), ["Dr. R.T. Kannapiran"], 4.3⟩ ]

/-- Line 162: `[dict(h) for h in HOSPITALS if request_form["type"] == "All" or
h["type"] == request_form["type"]]` (the `dict(h)` copies are modelled by the
heap development further below; at the value level the copy is the identity). -/
def filterByType (tf : String) (hs : List Hospital) : List Hospital :=
  hs.filter (fun h => tf == "All" || h.type == tf)

/-- Lines 165-166: the distance loop adding `h["distance"]` to each filtered
copy, with the geodesic model `dist` opaque. -/
def annotate (dist : Coord → Coord → ℚ) (u : Coord) (hs : List Hospital) : List Ranked :=
  hs.map (fun h => ⟨h.name, h.type, h.coords, h.doctors, h.rating, dist u h.coords⟩)

/-- The key preorder of line 172, `filtered.sort(key=lambda x: x["distance"])`. -/
def distLE (a b : Ranked) : Prop := a.distance ≤ b.distance

instance : DecidableRel distLE :=
  fun a b => inferInstanceAs (Decidable (a.distance ≤ b.distance))

instance : IsTotal Ranked distLE := ⟨fun a b => le_total a.distance b.distance⟩

instance : IsTrans Ranked distLE := ⟨fun _ _ _ h₁ h₂ => le_trans h₁ h₂⟩

/-- Line 172: the in-place stable sort of the filtered list by distance. -/
def sortByDistance (l : List Ranked) : List Ranked := List.insertionSort distLE l

/-- The key preorder of line 184, `sorted(filtered, key=lambda x:
(-x.get("rating",0), x["distance"]))`: Python tuple order on
`(-rating, distance)`. -/
def bestLE (a b : Ranked) : Prop :=
  b.rating < a.rating ∨ (a.rating = b.rating ∧ a.distance ≤ b.distance)

instance : DecidableRel bestLE := fun a b =>
  inferInstanceAs (Decidable (b.rating < a.rating ∨ (a.rating = b.rating ∧ a.distance ≤ b.distance)))

instance : IsTotal Ranked bestLE := by
  constructor
  intro a b
  rcases lt_trichotomy a.rating b.rating with h | h | h
  · exact Or.inr (Or.inl h)
  · rcases le_total a.distance b.distance with hd | hd
    · exact Or.inl (Or.inr ⟨h, hd⟩)
    · exact Or.inr (Or.inr ⟨h.symm, hd⟩)
  · exact Or.inl (Or.inl h)

instance : IsTrans Ranked bestLE := by
  constructor
  intro a b c hab hbc
  rcases hab with h₁ | ⟨h₁, d₁⟩
  · rcases hbc with h₂ | ⟨h₂, _⟩
    · exact Or.inl (h₂.trans h₁)
    · exact Or.inl (h₂ ▸ h₁)
  · rcases hbc with h₂ | ⟨h₂, d₂⟩
    · exact Or.inl (h₁ ▸ h₂)
    · exact Or.inr ⟨h₁.trans h₂, d₁.trans d₂⟩

/-- Lines 184-185: `best_sorted = sorted(filtered, key=...)`, applied to the
already distance-sorted list, then `best = best_sorted[0]`. -/
def bestPick (l : List Ranked) : Option Ranked :=
  (List.insertionSort bestLE l).head?

/-- Modelled from the spec (§4.1 step 4), for comparison with the code's
`bestLE`: the ordering "by `rating` descending, then by `distance` ascending,
then by `name` ascending for final tie-break".  The code's key
`(-x.get("rating",0), x["distance"])` has no name component. -/
def specBestLE (a b : Ranked) : Prop :=
  b.rating < a.rating ∨
    (a.rating = b.rating ∧
      (a.distance < b.distance ∨ (a.distance = b.distance ∧ pyStrLE a.name b.name)))

instance : DecidableRel specBestLE := fun a b =>
  inferInstanceAs (Decidable (b.rating < a.rating ∨
    (a.rating = b.rating ∧
      (a.distance < b.distance ∨ (a.distance = b.distance ∧ pyStrLE a.name b.name)))))

/-- Modelled from the spec (§4.1 step 4): "The first element of this ordering
is the designated best recommendation". -/
def specBestPick (l : List Ranked) : Option Ranked :=
  (List.insertionSort specBestLE l).head?

/-- Line 193: `results = filtered[:8]`. -/
def topResults (l : List Ranked) : List Ranked := l.take 8

/-- Line 145: `sorted(list({h["type"] for h in HOSPITALS} | {"All"}))`. -/
def typesList (hs : List Hospital) : List String :=
  List.insertionSort (· ≤ ·) (("All" :: hs.map (·.type)).dedup)

/-! ## The request handler `index` (lines 139-205)

External collaborators are opaque parameters.  A Python exception raised by a
collaborator is modelled as `Except.error` carrying the exception with its
`str(e)` text (`msg`) and its `traceback.format_exc()` text (`trace`); the
`try/except` of lines 147-197 catches it.  `Trace` instruments the run with
the calls made to the geocoder, the number of geodesic evaluations, and the
exception caught at the boundary (if any): it records what the handler did,
not extra behaviour. -/

/-- A Python exception: `msg` is `str(e)`, `trace` is `traceback.format_exc()`. -/
structure Exn where
  msg : String
  trace : String
deriving Repr, DecidableEq

/-- The inbound request: method plus the two form fields
(`request.form.get("location","")` and `request.form.get("type","All")`). -/
structure Request where
  isPost : Bool
  formLocation : String
  formType : String
deriving Repr, DecidableEq

/-- What the handler passes to `render_template_string` (lines 199-205). -/
structure Response where
  error : Option String
  map_html : Option String
  best : Option Ranked
  results : List Ranked
  types : List String
  request_form : String × String
  serverLog : List String
deriving Repr, DecidableEq

/-- Instrumentation of one run of the handler. -/
structure Trace where
  resolverCalls : List String
  distCalls : Nat
  caught : Option Exn
deriving Repr, DecidableEq

/-- Lines 131-137, `geocode_location`: try the raw text, then `"<text>, India"`;
returns the geocoder's answer together with the list of geocoder calls made. -/
def geocode_location (resolve : String → Except Exn (Option Coord)) (text : String) :
    Except Exn (Option Coord) × List String :=
  match resolve text with
  | .error e => (.error e, [text])
  | .ok (some l) => (.ok (some l), [text])
  | .ok none => (resolve (text ++ ", India"), [text, text ++ ", India"])

/-- Lines 139-205, the `index` view, as a function of the dataset, the opaque
geocoder `resolve`, the opaque geodesic model `dist`, the opaque folium map
rendering `renderMap` (lines 174-190, producing `m._repr_html_()`), and the
request.  Mirrors the Python control flow: the local variables `error`,
`map_html`, `best`, `results` start as `None`/`[]` and keep the value they had
when an exception jumps to the handler of lines 194-197, which sets
`error = "Server error: " + str(e)` and prints the traceback. -/
def index (hospitals : List Hospital) (resolve : String → Except Exn (Option Coord))
    (dist : Coord → Coord → ℚ)
    (renderMap : Coord → List Ranked → Option Ranked → Except Exn String)
    (req : Request) : Response × Trace :=
  let types := typesList hospitals
  if req.isPost then
    let location := pyStrip req.formLocation
    let rtype := req.formType
    if location = "" then
      (⟨some "Please enter a location.", none, none, [], types, (location, rtype), []⟩,
       ⟨[], 0, none⟩)
    else
      match geocode_location resolve location with
      | (.error e, calls) =>
          (⟨some ("Server error: " ++ e.msg), none, none, [], types, (location, rtype),
            [e.trace]⟩,
           ⟨calls, 0, some e⟩)
      | (.ok none, calls) =>
          (⟨some "Location not found. Try a different query or be more specific.",
            none, none, [], types, (location, rtype), []⟩,
           ⟨calls, 0, none⟩)
      | (.ok (some u), calls) =>
          let fil := annotate dist u (filterByType rtype hospitals)
          if fil = [] then
            (⟨some "No hospitals of that type are available in this dataset.",
              none, none, [], types, (location, rtype), []⟩,
             ⟨calls, fil.length, none⟩)
          else
            let sortedFil := sortByDistance fil
            let best := bestPick sortedFil
            match renderMap u sortedFil best with
            | .error e =>
                (⟨some ("Server error: " ++ e.msg), none, best, [], types,
                  (location, rtype), [e.trace]⟩,
                 ⟨calls, fil.length, some e⟩)
            | .ok html =>
                (⟨none, some html, best, topResults sortedFil, types,
                  (location, rtype), []⟩,
                 ⟨calls, fil.length, none⟩)
  else
    (⟨none, none, none, [], types, ("", "All"), []⟩, ⟨[], 0, none⟩)

/-! ## The CSV branch of `load_hospitals` (lines 19-33)

A cell of the parsed CSV is either a number, blank (a pandas `NaN`), or
non-numeric text.  `float(...)` on a number succeeds, on text raises
`ValueError`; a Python `float` value is `nan` or a rational.  The loop of
lines 25-32 appends one dict per row and has no per-row exception handling:
the first raising row propagates out of `load_hospitals` (modelled by
`Except.error`). -/

/-- A CSV cell as the loader sees it. -/
inductive Cell where
  | num (q : ℚ)
  | blank
  | text (s : String)
deriving Repr, DecidableEq

/-- A Python float value: `nan` or a rational. -/
inductive PyFloat where
  | nan
  | val (q : ℚ)
deriving Repr, DecidableEq

/-- `float(cell)`: numbers parse, a blank cell is the float `nan`
(pandas reads it as `NaN`), text raises `ValueError`. -/
def pyFloatOfCell : Cell → Except String PyFloat
  | .num q => .ok (.val q)
  | .blank => .ok .nan
  | .text s => .error ("could not convert string to float: " ++ s)

/-- One row of `hospitals.csv` after `pd.read_csv` (the `doctors` cell as the
string `str(r.get("doctors",""))` yields). -/
structure Row where
  name : String
  type : String
  latitude : Cell
  longitude : Cell
  doctors : String
  rating : Cell
deriving Repr, DecidableEq

/-- A hospital dict built from a CSV row (coordinates and rating may be `nan`). -/
structure CsvHospital where
  name : String
  type : String
  coords : PyFloat × PyFloat
  doctors : List String
  rating : PyFloat
deriving Repr, DecidableEq

/-- Lines 26-32: build one dict from row `r`.  `rating` uses
`float(r.get("rating") if not pd.isna(r.get("rating")) else 0)`, so a blank
rating becomes `0`; `doctors` is the pipe-split, stripped, non-empty parts. -/
def parseRow (r : Row) : Except String CsvHospital := do
  let lat ← pyFloatOfCell r.latitude
  let lon ← pyFloatOfCell r.longitude
  let doctors := ((pySplitPipe r.doctors).map pyStrip).filter (fun d => d ≠ "")
  let rating ← if r.rating = Cell.blank then pure (PyFloat.val 0) else pyFloatOfCell r.rating
  pure ⟨pyStrip r.name, pyStrip r.type, (lat, lon), doctors, rating⟩

/-- Lines 24-33: the row loop of the CSV branch of `load_hospitals`.  A raising
row aborts the whole load: there is no `try/except` inside the loop. -/
def load_hospitals_csv (rows : List Row) : Except String (List CsvHospital) :=
  rows.mapM parseRow

/-! ## Heap model of the per-request copies (line 162 and lines 165-166)

`filtered = [dict(h) for h in HOSPITALS ...]` copies each matching dict into a
fresh object, and the distance loop then mutates only those copies.  To state
that the loaded dataset is never mutated we model the Python object store as a
list of records indexed by address: `HOSPITALS` is the address list
`List.range n` into a heap whose first `n` cells hold the dataset. -/

/-- A hospital dict in the object store; `distance` is `none` until the key is
added by line 166. -/
structure PRec where
  name : String
  type : String
  coords : Coord
  doctors : List String
  rating : ℚ
  distance : Option ℚ
deriving Repr, DecidableEq

/-- The default record used to total `List.getD` (never reached on valid
addresses). -/
def dfltPRec : PRec := ⟨"", "", (0, 0), [], 0, none⟩

/-- Line 162 over the object store: walk the dataset addresses, and for each
record matching the type filter append a fresh copy (`dict(h)`) to the heap;
returns the extended heap and the addresses of the copies (the list
`filtered`). -/
def filterCopy (tf : String) : List Nat → List PRec → List PRec × List Nat
  | [], heap => (heap, [])
  | a :: as, heap =>
    let h := heap.getD a dfltPRec
    if tf == "All" || h.type == tf then
      ((filterCopy tf as (heap ++ [h])).1,
        heap.length :: (filterCopy tf as (heap ++ [h])).2)
    else
      filterCopy tf as heap

/-- Lines 165-166 over the object store: `for h in filtered:
h["distance"] = geodesic(user_coords, h["coords"]).km` mutates the record at
each address of `filtered` in place. -/
def annotateHeap (dist : Coord → Coord → ℚ) (u : Coord) :
    List Nat → List PRec → List PRec
  | [], heap => heap
  | a :: as, heap =>
    let h := heap.getD a dfltPRec
    annotateHeap dist u as (heap.set a { h with distance := some (dist u h.coords) })

/-- The whole mutating part of one request's ranking over the object store:
filter-with-copy, then the distance loop on the copies.  Sorting (line 172)
reorders the list object `filtered`, `sorted` (line 184) builds a new list,
and `filtered[:8]` (line 193) slices: none of the three touches the records,
so the heap after the request is exactly this. -/
def requestHeap (tf : String) (dist : Coord → Coord → ℚ) (u : Coord)
    (heap : List PRec) : List PRec :=
  annotateHeap dist u (filterCopy tf (List.range heap.length) heap).2
    (filterCopy tf (List.range heap.length) heap).1

/-! ## Concrete fixtures

Stub collaborators for witnesses, and small annotated record sets exhibiting
ties.  `cB`/`cA` share type, rating, coordinates and distance but their names
are out of alphabetical order; `nineTies` has nine records whose top-rated
member is the farthest. -/

/-- A geodesic stub. -/
def dist0 : Coord → Coord → ℚ := fun _ _ => 0

/-- A map-rendering stub that always succeeds. -/
def renderOk : Coord → List Ranked → Option Ranked → Except Exn String :=
  fun _ _ _ => .ok "<map>"

/-- A geocoder stub resolving everything to a fixed coordinate. -/
def resolveAt (c : Coord) : String → Except Exn (Option Coord) :=
  fun _ => .ok (some c)

/-- A geocoder stub that never finds a match. -/
def resolveNone : String → Except Exn (Option Coord) :=
  fun _ => .ok none

/-- A geocoder stub that raises `e`. -/
def resolveRaise (e : Exn) : String → Except Exn (Option Coord) :=
  fun _ => .error e

/-- Tie fixture, first in input order, name `"B"`. -/
def cB : Ranked := ⟨"B", "X", (0, 0), [], 4, 1⟩

/-- Tie fixture, second in input order, name `"A"`. -/
def cA : Ranked := ⟨"A", "X", (0, 0), [], 4, 1⟩

/-- The farthest but highest-rated record of `nineTies`. -/
def farBest : Ranked := ⟨"Far Top Hospital", "X", (9, 9), [], 5, 9⟩

/-- Nine annotated records: eight near ones of rating 1 at distances 1..8, and
`farBest` (rating 5) at distance 9. -/
def nineTies : List Ranked :=
  [ ⟨"N1", "X", (0, 0), [], 1, 1⟩, ⟨"N2", "X", (0, 0), [], 1, 2⟩,
    ⟨"N3", "X", (0, 0), [], 1, 3⟩, ⟨"N4", "X", (0, 0), [], 1, 4⟩,
    ⟨"N5", "X", (0, 0), [], 1, 5⟩, ⟨"N6", "X", (0, 0), [], 1, 6⟩,
    ⟨"N7", "X", (0, 0), [], 1, 7⟩, ⟨"N8", "X", (0, 0), [], 1, 8⟩, farBest ]

/-! ## Helper lemmas -/

/-- The head of an insertion sort is related to every element of the input. -/
theorem head_rel_of_insertionSort {α : Type} (r : α → α → Prop) [DecidableRel r]
    [IsTotal α r] [IsTrans α r] {l : List α} {b : α}
    (hb : (List.insertionSort r l).head? = some b) :
    ∀ y ∈ l, r b y := by
  intro y hy
  have hmem : y ∈ List.insertionSort r l := ((List.perm_insertionSort r l).mem_iff).2 hy
  have hs : List.Sorted r (List.insertionSort r l) := List.sorted_insertionSort r l
  cases hsort : List.insertionSort r l with
  | nil => rw [hsort] at hb; cases hb
  | cons a t =>
    rw [hsort] at hb hmem hs
    have hab : a = b := by simpa using hb
    subst hab
    rcases List.mem_cons.1 hmem with h | h
    · subst h; exact (total_of r y y).elim id id
    · exact List.rel_of_sorted_cons hs y h

/-! ## C1: the best pick -/

/-- C1 counterexample: on the annotated set `[cB, cA]` (equal rating, equal
distance, names out of alphabetical order), the code's best pick (line 185) is
`cB` — the stable sort keeps dataset order on full key ties — while the first
element of the spec's rating/distance/name ordering is `cA`, so the best pick
is NOT the first element of the spec's ordering. -/
theorem C1_counterexample :
    bestPick (sortByDistance [cB, cA]) = some cB ∧
    specBestPick [cB, cA] = some cA ∧
    bestPick (sortByDistance [cB, cA]) ≠ specBestPick [cB, cA] := by decide

/-- C1 (amended): for every non-empty annotated set, the code's best pick
(line 185, first element of the stable sort by `(-rating, distance)` of the
distance-sorted list) has rating greater than or equal to every record's
rating and, among records sharing its rating, minimal distance; full ties are
broken by dataset order, not by name. -/
theorem C1_best_amended (l : List Ranked) (hne : l ≠ []) :
    ∃ b, bestPick (sortByDistance l) = some b ∧
      ∀ y ∈ l, y.rating ≤ b.rating ∧ (y.rating = b.rating → b.distance ≤ y.distance) := by
  have hlen : (List.insertionSort bestLE (sortByDistance l)).length = l.length := by
    rw [List.length_insertionSort, sortByDistance, List.length_insertionSort]
  cases hsort : List.insertionSort bestLE (sortByDistance l) with
  | nil =>
    rw [hsort] at hlen
    exact absurd (List.length_eq_zero.mp hlen.symm) hne
  | cons b t =>
    have hhead : (List.insertionSort bestLE (sortByDistance l)).head? = some b := by
      rw [hsort]; rfl
    refine ⟨b, by simpa [bestPick] using hhead, ?_⟩
    intro y hy
    have hy' : y ∈ sortByDistance l :=
      ((List.perm_insertionSort distLE l).mem_iff).2 hy
    have hrel : bestLE b y := head_rel_of_insertionSort bestLE hhead y hy'
    constructor
    · rcases hrel with h | ⟨h, _⟩
      · exact le_of_lt h
      · exact h.symm.le
    · intro heq
      rcases hrel with h | ⟨_, hd⟩
      · exact absurd h (by rw [heq]; exact lt_irrefl _)
      · exact hd

/-- C1 witness: the amended best-pick property holds on the concrete
singleton annotated set `[cB]`. -/
theorem C1_best_witness :
    ∃ b, bestPick (sortByDistance [cB]) = some b ∧
      ∀ y ∈ [cB], y.rating ≤ b.rating ∧ (y.rating = b.rating → b.distance ≤ y.distance) :=
  C1_best_amended [cB] (by decide)

/-! ## C2: the nearby-list ordering -/

/-- C2 counterexample: the distance sort of `[cB, cA]` leaves the two
equal-distance records in dataset order `["B", "A"]`, which is not ascending
by name, refuting the claimed name secondary order. -/
theorem C2_counterexample :
    sortByDistance [cB, cA] = [cB, cA] ∧ cB.distance = cA.distance ∧
    ¬ pyStrLE cB.name cA.name ∧
    ¬ (sortByDistance [cB, cA]).Pairwise
        (fun a b => a.distance = b.distance → pyStrLE a.name b.name) := by
  refine ⟨by decide, by decide, by decide, ?_⟩
  intro hp
  rw [(by decide : sortByDistance [cB, cA] = [cB, cA])] at hp
  exact absurd ((List.pairwise_cons.1 hp).1 cA (by decide) (by decide)) (by decide)

/-- C2 (amended): the nearby-list ordering (line 172) is non-decreasing in
distance and is a permutation of the input; records whose distances are in
non-decreasing order — in particular equal-distance records — retain their
relative input order (the sort is stable), so the output is a deterministic
function of the input; the secondary order is input order, not name order. -/
theorem C2_sort_amended (l : List Ranked) :
    (sortByDistance l).Sorted distLE ∧ (sortByDistance l).Perm l ∧
    ∀ a b : Ranked, distLE a b → List.Sublist [a, b] l →
      List.Sublist [a, b] (sortByDistance l) :=
  ⟨List.sorted_insertionSort distLE l, List.perm_insertionSort distLE l,
   fun _ _ hab hsub => List.pair_sublist_insertionSort hab hsub⟩

/-- C2 witness: stability instantiated on the concrete equal-distance pair
`cB, cA`. -/
theorem C2_sort_witness : List.Sublist [cB, cA] (sortByDistance [cB, cA]) :=
  (C2_sort_amended [cB, cA]).2.2 cB cA (by decide) (by decide)

/-! ## C3: truncation to 8 and the full-set best pick -/

/-- C3: when more than 8 records match, the nearby list (line 193,
`filtered[:8]`) has exactly 8 entries, is the initial segment of the
distance-sorted order, and each entry's distance is at most that of every
dropped record; the best pick is computed from the full set, and on the
concrete 9-record set `nineTies` the best pick is its farthest member, which
is absent from the truncated nearby list. -/
theorem C3_truncation (l : List Ranked) (h8 : 8 < l.length) :
    (topResults (sortByDistance l)).length = 8 ∧
    topResults (sortByDistance l) ++ (sortByDistance l).drop 8 = sortByDistance l ∧
    (∀ x ∈ topResults (sortByDistance l), ∀ y ∈ (sortByDistance l).drop 8, distLE x y) ∧
    bestPick (sortByDistance nineTies) = some farBest ∧
    8 < nineTies.length ∧ farBest ∉ topResults (sortByDistance nineTies) := by
  have hlen : (sortByDistance l).length = l.length := List.length_insertionSort distLE l
  refine ⟨?_, List.take_append_drop 8 (sortByDistance l), ?_, by decide, by decide, by decide⟩
  · rw [topResults, List.length_take, hlen]
    omega
  · have hs : (sortByDistance l).Pairwise distLE := List.sorted_insertionSort distLE l
    rw [← List.take_append_drop 8 (sortByDistance l)] at hs
    exact fun x hx y hy => (List.pairwise_append.1 hs).2.2 x hx y hy

/-- C3 witness: the truncation property applied to the concrete 9-record set
`nineTies`. -/
theorem C3_truncation_witness :
    8 < nineTies.length ∧ (topResults (sortByDistance nineTies)).length = 8 :=
  ⟨by decide, (C3_truncation nineTies (by decide)).1⟩

/-! ## C4-C7: the error paths of `index` -/

/-- C4: on a POST whose location resolves but whose type filter matches zero
records (lines 168-169), the handler sets the empty-filter message — distinct
from the resolution-failure message — does not crash (no exception is caught,
a response is produced), and leaves `best` and `results` empty. -/
theorem C4_empty_filter (hospitals : List Hospital)
    (resolve : String → Except Exn (Option Coord)) (dist : Coord → Coord → ℚ)
    (renderMap : Coord → List Ranked → Option Ranked → Except Exn String)
    (req : Request) (u : Coord)
    (hpost : req.isPost = true) (hloc : pyStrip req.formLocation ≠ "")
    (hres : (geocode_location resolve (pyStrip req.formLocation)).1 = Except.ok (some u))
    (hfil : filterByType req.formType hospitals = []) :
    (index hospitals resolve dist renderMap req).1.error =
      some "No hospitals of that type are available in this dataset." ∧
    "No hospitals of that type are available in this dataset." ≠
      "Location not found. Try a different query or be more specific." ∧
    (index hospitals resolve dist renderMap req).1.best = none ∧
    (index hospitals resolve dist renderMap req).1.results = [] ∧
    (index hospitals resolve dist renderMap req).2.caught = none := by
  cases hg : geocode_location resolve (pyStrip req.formLocation) with
  | mk res calls =>
    rw [hg] at hres
    simp only at hres
    subst hres
    refine ⟨?_, by decide, ?_, ?_, ?_⟩ <;> simp [index, hpost, hloc, hg, hfil, annotate]

/-- C4 witness: querying the fallback dataset for the absent type
`"Cardiology"` with a geocoder stub that resolves everything. -/
theorem C4_empty_filter_witness :
    (Request.mk true "Chennai" "Cardiology").isPost = true ∧
    pyStrip "Chennai" ≠ "" ∧
    (geocode_location (resolveAt (0, 0)) (pyStrip "Chennai")).1 = Except.ok (some (0, 0)) ∧
    filterByType "Cardiology" HOSPITALS = [] ∧
    ((index HOSPITALS (resolveAt (0, 0)) dist0 renderOk ⟨true, "Chennai", "Cardiology"⟩).1.error =
      some "No hospitals of that type are available in this dataset." ∧
    "No hospitals of that type are available in this dataset." ≠
      "Location not found. Try a different query or be more specific." ∧
    (index HOSPITALS (resolveAt (0, 0)) dist0 renderOk ⟨true, "Chennai", "Cardiology"⟩).1.best = none ∧
    (index HOSPITALS (resolveAt (0, 0)) dist0 renderOk ⟨true, "Chennai", "Cardiology"⟩).1.results = [] ∧
    (index HOSPITALS (resolveAt (0, 0)) dist0 renderOk ⟨true, "Chennai", "Cardiology"⟩).2.caught = none) :=
  ⟨rfl, by decide, rfl, rfl,
   C4_empty_filter HOSPITALS (resolveAt (0, 0)) dist0 renderOk
     ⟨true, "Chennai", "Cardiology"⟩ (0, 0) rfl (by decide) rfl rfl⟩

/-- C5: on a POST whose stripped location text is empty (lines 152-153), the
handler sets the input-error message, never calls the geocoder, computes no
distances, and leaves `best` and `results` empty. -/
theorem C5_empty_location (hospitals : List Hospital)
    (resolve : String → Except Exn (Option Coord)) (dist : Coord → Coord → ℚ)
    (renderMap : Coord → List Ranked → Option Ranked → Except Exn String)
    (req : Request) (hpost : req.isPost = true) (hloc : pyStrip req.formLocation = "") :
    (index hospitals resolve dist renderMap req).1.error = some "Please enter a location." ∧
    (index hospitals resolve dist renderMap req).2.resolverCalls = [] ∧
    (index hospitals resolve dist renderMap req).2.distCalls = 0 ∧
    (index hospitals resolve dist renderMap req).1.best = none ∧
    (index hospitals resolve dist renderMap req).1.results = [] := by
  simp [index, hpost, hloc]

/-- C5 witness: a POST with whitespace-only location text. -/
theorem C5_empty_location_witness :
    (Request.mk true "   " "All").isPost = true ∧
    pyStrip "   " = "" ∧
    ((index HOSPITALS (resolveAt (0, 0)) dist0 renderOk ⟨true, "   ", "All"⟩).1.error =
      some "Please enter a location." ∧
    (index HOSPITALS (resolveAt (0, 0)) dist0 renderOk ⟨true, "   ", "All"⟩).2.resolverCalls = [] ∧
    (index HOSPITALS (resolveAt (0, 0)) dist0 renderOk ⟨true, "   ", "All"⟩).2.distCalls = 0 ∧
    (index HOSPITALS (resolveAt (0, 0)) dist0 renderOk ⟨true, "   ", "All"⟩).1.best = none ∧
    (index HOSPITALS (resolveAt (0, 0)) dist0 renderOk ⟨true, "   ", "All"⟩).1.results = []) :=
  ⟨rfl, by decide,
   C5_empty_location HOSPITALS (resolveAt (0, 0)) dist0 renderOk ⟨true, "   ", "All"⟩
     rfl (by decide)⟩

/-- C6: on a POST whose geocoding yields no match (lines 155-158), the handler
sets the location-not-found message, computes no distances, catches no
exception, and leaves `best` and `results` empty: ranking is never reached. -/
theorem C6_resolution_failure (hospitals : List Hospital)
    (resolve : String → Except Exn (Option Coord)) (dist : Coord → Coord → ℚ)
    (renderMap : Coord → List Ranked → Option Ranked → Except Exn String)
    (req : Request) (hpost : req.isPost = true) (hloc : pyStrip req.formLocation ≠ "")
    (hres : (geocode_location resolve (pyStrip req.formLocation)).1 = Except.ok none) :
    (index hospitals resolve dist renderMap req).1.error =
      some "Location not found. Try a different query or be more specific." ∧
    (index hospitals resolve dist renderMap req).2.distCalls = 0 ∧
    (index hospitals resolve dist renderMap req).1.best = none ∧
    (index hospitals resolve dist renderMap req).1.results = [] ∧
    (index hospitals resolve dist renderMap req).2.caught = none := by
  cases hg : geocode_location resolve (pyStrip req.formLocation) with
  | mk res calls =>
    rw [hg] at hres
    simp only at hres
    subst hres
    simp [index, hpost, hloc, hg]

/-- C6 witness: a POST with a geocoder stub that never finds a match. -/
theorem C6_resolution_failure_witness :
    (Request.mk true "Nowhere" "All").isPost = true ∧
    pyStrip "Nowhere" ≠ "" ∧
    (geocode_location resolveNone (pyStrip "Nowhere")).1 = Except.ok none ∧
    ((index HOSPITALS resolveNone dist0 renderOk ⟨true, "Nowhere", "All"⟩).1.error =
      some "Location not found. Try a different query or be more specific." ∧
    (index HOSPITALS resolveNone dist0 renderOk ⟨true, "Nowhere", "All"⟩).2.distCalls = 0 ∧
    (index HOSPITALS resolveNone dist0 renderOk ⟨true, "Nowhere", "All"⟩).1.best = none ∧
    (index HOSPITALS resolveNone dist0 renderOk ⟨true, "Nowhere", "All"⟩).1.results = [] ∧
    (index HOSPITALS resolveNone dist0 renderOk ⟨true, "Nowhere", "All"⟩).2.caught = none) :=
  ⟨rfl, by decide, rfl,
   C6_resolution_failure HOSPITALS resolveNone dist0 renderOk ⟨true, "Nowhere", "All"⟩
     rfl (by decide) rfl⟩

/-- C7 counterexample: the user-visible failure message is not generic — it is
`"Server error: " + str(e)` (line 195), so it varies with, and leaks, the
exception's own message. -/
theorem C7_counterexample :
    (index HOSPITALS (resolveRaise ⟨"boom", "tb"⟩) dist0 renderOk ⟨true, "X", "All"⟩).1.error =
      some "Server error: boom" ∧
    (index HOSPITALS (resolveRaise ⟨"fire", "tb"⟩) dist0 renderOk ⟨true, "X", "All"⟩).1.error =
      some "Server error: fire" ∧
    (index HOSPITALS (resolveRaise ⟨"boom", "tb"⟩) dist0 renderOk ⟨true, "X", "All"⟩).1.error ≠
      (index HOSPITALS (resolveRaise ⟨"fire", "tb"⟩) dist0 renderOk ⟨true, "X", "All"⟩).1.error := by
  refine ⟨rfl, rfl, ?_⟩
  decide

/-- C7 (amended): every exception raised while handling a request is caught at
the request boundary (lines 194-197) — a response is still produced — and the
traceback is logged server-side; but the user-visible message is
`"Server error: "` followed by `str(e)`, so the exception's message is
included rather than a generic detail-free text. -/
theorem C7_catch_amended (hospitals : List Hospital)
    (resolve : String → Except Exn (Option Coord)) (dist : Coord → Coord → ℚ)
    (renderMap : Coord → List Ranked → Option Ranked → Except Exn String)
    (req : Request) (e : Exn)
    (h : (index hospitals resolve dist renderMap req).2.caught = some e) :
    (index hospitals resolve dist renderMap req).1.error =
      some ("Server error: " ++ e.msg) ∧
    (index hospitals resolve dist renderMap req).1.serverLog = [e.trace] := by
  by_cases hp : req.isPost = true
  · by_cases hl : pyStrip req.formLocation = ""
    · simp [index, hp, hl] at h
    · cases hg : geocode_location resolve (pyStrip req.formLocation) with
      | mk res calls =>
        cases res with
        | error e' =>
          simp only [index, hp, if_true, hl, if_false, hg] at h ⊢
          simp at h
          subst h
          exact ⟨rfl, rfl⟩
        | ok o =>
          cases o with
          | none => simp [index, hp, hl, hg] at h
          | some w =>
            by_cases hf : annotate dist w (filterByType req.formType hospitals) = []
            · simp [index, hp, hl, hg, hf] at h
            · cases hr : renderMap w
                (sortByDistance (annotate dist w (filterByType req.formType hospitals)))
                (bestPick (sortByDistance (annotate dist w (filterByType req.formType hospitals)))) with
              | error e' =>
                simp [index, hp, hl, hg, hf, hr] at h ⊢
                subst h
                exact ⟨rfl, rfl⟩
              | ok html => simp [index, hp, hl, hg, hf, hr] at h
  · simp [index, hp] at h

/-- C7 witness: a geocoder raising an exception with message `"boom"` and
traceback `"tb"`. -/
theorem C7_catch_witness :
    (index HOSPITALS (resolveRaise ⟨"boom", "tb"⟩) dist0 renderOk ⟨true, "X", "All"⟩).2.caught =
      some ⟨"boom", "tb"⟩ ∧
    ((index HOSPITALS (resolveRaise ⟨"boom", "tb"⟩) dist0 renderOk ⟨true, "X", "All"⟩).1.error =
      some ("Server error: " ++ Exn.msg ⟨"boom", "tb"⟩) ∧
    (index HOSPITALS (resolveRaise ⟨"boom", "tb"⟩) dist0 renderOk ⟨true, "X", "All"⟩).1.serverLog =
      [Exn.trace ⟨"boom", "tb"⟩]) :=
  ⟨rfl,
   C7_catch_amended HOSPITALS (resolveRaise ⟨"boom", "tb"⟩) dist0 renderOk
     ⟨true, "X", "All"⟩ ⟨"boom", "tb"⟩ rfl⟩

/-! ## C8: the loader on a malformed row -/

/-- A well-formed CSV row. -/
def goodRow : Row := ⟨"AIIMS Delhi", "Multispeciality", .num 28, .num 77, "Dr. A|Dr. B", .num 4⟩

/-- A malformed CSV row: its latitude cell is the non-numeric text `"abc"`. -/
def badRow : Row := ⟨"Broken Clinic", "General", .text "abc", .num 10, "", .blank⟩

/-- C8: the loader has no per-row recovery.  A well-formed row parses on its
own, but as soon as one row's coordinate cell is unparseable,
`float()` raises (line 29) and the whole load aborts: no record, not even
from the well-formed rows, is returned — the claimed skip-or-coerce behaviour
(returning the well-formed rows) is absent from the code. -/
theorem C8_loader_aborts :
    parseRow goodRow =
      .ok ⟨"AIIMS Delhi", "Multispeciality", (.val 28, .val 77), ["Dr. A", "Dr. B"], .val 4⟩ ∧
    load_hospitals_csv [goodRow, badRow] =
      .error "could not convert string to float: abc" := ⟨rfl, rfl⟩

/-! ## C9: no mutation of the loaded dataset -/

/-- `filterCopy` only ever appends fresh copies to the heap, and every address
it returns points at one of those copies (at or beyond the old heap length). -/
theorem filterCopy_spec (tf : String) :
    ∀ (as : List Nat) (heap : List PRec),
      (∃ ext, (filterCopy tf as heap).1 = heap ++ ext) ∧
      (∀ x ∈ (filterCopy tf as heap).2, heap.length ≤ x) := by
  intro as
  induction as with
  | nil =>
    intro heap
    exact ⟨⟨[], by simp [filterCopy]⟩, by simp [filterCopy]⟩
  | cons a as ih =>
    intro heap
    by_cases hc : (tf == "All" || (heap.getD a dfltPRec).type == tf) = true
    · obtain ⟨⟨ext, h1⟩, h2⟩ := ih (heap ++ [heap.getD a dfltPRec])
      constructor
      · refine ⟨heap.getD a dfltPRec :: ext, ?_⟩
        rw [filterCopy]
        simp only [hc, if_true, h1]
        simp
      · intro x hx
        rw [filterCopy] at hx
        simp only [hc, if_true] at hx
        rcases List.mem_cons.1 hx with rfl | hx
        · exact le_refl _
        · have := h2 x hx
          simp only [List.length_append, List.length_cons, List.length_nil] at this
          omega
    · obtain ⟨⟨ext, h1⟩, h2⟩ := ih heap
      constructor
      · refine ⟨ext, ?_⟩
        rw [filterCopy]
        simp only [hc, if_false]
        exact h1
      · intro x hx
        rw [filterCopy] at hx
        simp only [hc, if_false] at hx
        exact h2 x hx

/-- The distance loop writes only at the given addresses: every heap cell
below any lower bound of those addresses is untouched. -/
theorem annotateHeap_take (dist : Coord → Coord → ℚ) (u : Coord) :
    ∀ (as : List Nat) (heap : List PRec) (n : Nat), (∀ a ∈ as, n ≤ a) →
      (annotateHeap dist u as heap).take n = heap.take n := by
  intro as
  induction as with
  | nil => intro heap n _; rfl
  | cons a as ih =>
    intro heap n hb
    have ha : n ≤ a := hb a (List.mem_cons_self a as)
    rw [annotateHeap]
    rw [ih _ n (fun x hx => hb x (List.mem_cons_of_mem a hx))]
    rw [List.set_take]
    exact List.set_eq_of_length_le (le_trans (List.length_take_le ..) ha)

/-- C9: ranking has no side effect on the dataset.  After the filter copies
the matching dicts (line 162) and the distance loop mutates those copies
(lines 165-166), every record of the loaded dataset — the first `n` cells of
the object store — is unchanged; sorting, truncation and best-pick selection
do not write to records at all. -/
theorem C9_no_mutation (heap : List PRec) (tf : String) (dist : Coord → Coord → ℚ)
    (u : Coord) :
    (requestHeap tf dist u heap).take heap.length = heap := by
  obtain ⟨⟨ext, h1⟩, h2⟩ := filterCopy_spec tf (List.range heap.length) heap
  rw [requestHeap, annotateHeap_take dist u _ _ heap.length h2, h1]
  simp

/-! ## C10: the type options -/

/-- C10: on every request — GET or POST, on every path — the handler passes
`typesList hospitals` (line 145) to the template, and that list has no
duplicates, contains `"All"`, is sorted ascending, and contains exactly the
dataset's distinct `type` values together with `"All"`. -/
theorem C10_types_invariant (hospitals : List Hospital)
    (resolve : String → Except Exn (Option Coord)) (dist : Coord → Coord → ℚ)
    (renderMap : Coord → List Ranked → Option Ranked → Except Exn String)
    (req : Request) :
    (index hospitals resolve dist renderMap req).1.types = typesList hospitals ∧
    (typesList hospitals).Nodup ∧
    "All" ∈ typesList hospitals ∧
    (typesList hospitals).Sorted (· ≤ ·) ∧
    ∀ s, s ∈ typesList hospitals ↔ (s = "All" ∨ s ∈ hospitals.map (·.type)) := by
  refine ⟨?_, ?_, ?_, ?_, ?_⟩
  · by_cases hp : req.isPost = true
    · by_cases hl : pyStrip req.formLocation = ""
      · simp [index, hp, hl]
      · cases hg : geocode_location resolve (pyStrip req.formLocation) with
        | mk res calls =>
          cases res with
          | error e => simp [index, hp, hl, hg]
          | ok o =>
            cases o with
            | none => simp [index, hp, hl, hg]
            | some w =>
              by_cases hf : annotate dist w (filterByType req.formType hospitals) = []
              · simp [index, hp, hl, hg, hf]
              · cases hr : renderMap w
                  (sortByDistance (annotate dist w (filterByType req.formType hospitals)))
                  (bestPick (sortByDistance (annotate dist w (filterByType req.formType hospitals)))) with
                | error e => simp [index, hp, hl, hg, hf, hr]
                | ok html => simp [index, hp, hl, hg, hf, hr]
    · simp [index, hp]
  · exact ((List.perm_insertionSort _ _).nodup_iff).2 (List.nodup_dedup _)
  · rw [typesList, (List.perm_insertionSort _ _).mem_iff, List.mem_dedup]
    exact List.mem_cons_self _ _
  · exact List.sorted_insertionSort _ _
  · intro s
    rw [typesList, (List.perm_insertionSort _ _).mem_iff, List.mem_dedup, List.mem_cons]

end HospitalLocator
